import Mathlib

/-!
Verification of the Grand Plaza hotel room-service order pipeline.

The definitions below are a shallow embedding of the Python sources:
  * `backend/hotel_room_service_tavus.py` — `ServiceCache`, `OrderManager`,
    `convert_text_to_number`, `find_menu_item_by_name`, the flow handler
    functions (`place_order`, `add_to_order`, ...) and the static flow
    configuration `hotel_room_service_flow`.
  * `app/routers/orders.py` — the Order Service `create_order` endpoint.

Python strings are modelled as Lean `String`; the helpers `pyLower`,
`pyStrip`, `pyIn`, `pySplitWords` and `pySplitOnDash` reproduce the
ASCII behaviour of `str.lower`, `str.strip`, the `in` operator,
`str.split()` and `str.split('-')`.  Monetary values (Python floats /
`Decimal`) are modelled as exact rationals `ℚ`.  Remote I/O (aiohttp
calls, the SQLAlchemy session) is modelled by passing the remote
outcome in explicitly and counting the network calls a handler issues.
-/

namespace GrandPlaza

/-- ASCII lowercasing of a string, as Python `str.lower` on ASCII data. -/
def pyLower (s : String) : String := ⟨s.data.map Char.toLower⟩

/-- Whitespace trimming at both ends, as Python `str.strip()`. -/
def pyStrip (s : String) : String :=
  ⟨((s.data.dropWhile Char.isWhitespace).reverse.dropWhile Char.isWhitespace).reverse⟩

/-- Does the first list occur at the very start of the second list? -/
def isStartOf : List Char → List Char → Bool
  | [], _ => true
  | _ :: _, [] => false
  | a :: as, b :: bs => a == b && isStartOf as bs

/-- Does the first list occur contiguously anywhere inside the second list? -/
def containsSub (needle : List Char) : List Char → Bool
  | [] => needle.isEmpty
  | c :: t => isStartOf needle (c :: t) || containsSub needle t

/-- Python substring test `a in b`. -/
def pyIn (a b : String) : Bool := containsSub a.data b.data

/-- Accumulator-based splitting of a character list on whitespace runs,
dropping empty pieces, as Python `str.split()` with no argument. -/
def splitWsAux (cur : List Char) : List Char → List (List Char)
  | [] => if cur.isEmpty then [] else [cur.reverse]
  | c :: rest =>
    if c.isWhitespace then
      if cur.isEmpty then splitWsAux [] rest
      else cur.reverse :: splitWsAux [] rest
    else splitWsAux (c :: cur) rest

/-- Python `str.split()`: split on whitespace runs, no empty words. -/
def pySplitWords (s : String) : List String :=
  (splitWsAux [] s.data).map String.mk

/-- Splitting a character list at every occurrence of a separator
character, keeping empty pieces, as Python `str.split(sep)`. -/
def splitOnChar (sep : Char) : List Char → List (List Char)
  | [] => [[]]
  | c :: rest =>
    if c == sep then [] :: splitOnChar sep rest
    else
      match splitOnChar sep rest with
      | [] => [[c]]
      | h :: t => (c :: h) :: t

/-- Python `text.split('-')`. -/
def pySplitOnDash (s : String) : List String :=
  (splitOnChar '-' s.data).map String.mk

/-- Decimal value of a list of digit characters, as Python `int` on a
digit string. -/
def digitsToNat (cs : List Char) : Nat :=
  cs.foldl (fun n c => 10 * n + (c.toNat - 48)) 0

/-- Python `str.isdigit()` on ASCII data: non-empty and all digits. -/
def isDigitStr (s : String) : Bool :=
  !s.data.isEmpty && s.data.all Char.isDigit

/-- First maximal run of decimal digits in a character list, as the
first match of the regular expression `\d+` in `re.findall`. -/
def firstDigitRun : List Char → Option (List Char)
  | [] => none
  | c :: rest =>
    if c.isDigit then some (c :: rest.takeWhile Char.isDigit)
    else firstDigitRun rest

/-! Data model.  Fields of the Python dictionaries / SQLAlchemy rows that
none of the verified routines read (timestamps, e-mail, images, ...) are
omitted; every field a verified routine touches is present. -/

/-- A catalog menu item as served by the Catalog Service
(`id`, `name`, `description`, `price`, `category_id`, `is_available`). -/
structure MenuItem where
  id : String
  name : String
  description : Option String
  price : ℚ
  category_id : String
  is_available : Bool
deriving Repr, DecidableEq

/-- A menu category (`id`, `name`, `is_active`). -/
structure Category where
  id : String
  name : String
  is_active : Bool
deriving Repr, DecidableEq

/-- A registered guest (`id`, `name`, `room_number`). -/
structure Guest where
  id : String
  name : String
  room_number : String
deriving Repr, DecidableEq

/-- One line of the in-progress order, the dictionary built by
`OrderManager.add_item`. -/
structure OrderLine where
  menu_item_id : String
  name : String
  quantity : Int
  unit_price : ℚ
  total_price : ℚ
  special_notes : Option String
deriving Repr, DecidableEq

/-- The mutable state of `OrderManager`. -/
structure OrderState where
  guest_id : Option String
  guest_name : Option String
  room_number : Option String
  items : List OrderLine
  special_requests : Option String
  delivery_notes : Option String
  order_id : Option String
  total_amount : ℚ
deriving Repr, DecidableEq

/-- `OrderManager.reset`: the initial state (also `__init__`). -/
def OrderState.reset : OrderState :=
  { guest_id := none, guest_name := none, room_number := none, items := []
    special_requests := none, delivery_notes := none, order_id := none
    total_amount := 0 }

/-- `OrderManager.add_item`: build the line dictionary, append it and add
its `total_price` to the running total; returns the new state and the line. -/
def add_item (s : OrderState) (menu_item : MenuItem) (quantity : Int)
    (special_notes : Option String) : OrderState × OrderLine :=
  let item : OrderLine :=
    { menu_item_id := menu_item.id
      name := menu_item.name
      quantity := quantity
      unit_price := menu_item.price
      total_price := menu_item.price * quantity
      special_notes := special_notes }
  ({ s with items := s.items ++ [item]
            total_amount := s.total_amount + item.total_price }, item)

/-- The loop body of `OrderManager.remove_item`: find the first line whose
lowercased name equals the given lowercased name; return it and the list
with that line removed. -/
def removeFirst (name_lower : String) : List OrderLine →
    Option (OrderLine × List OrderLine)
  | [] => none
  | it :: rest =>
    if pyLower it.name == name_lower then some (it, rest)
    else
      match removeFirst name_lower rest with
      | some (r, rest') => some (r, it :: rest')
      | none => none

/-- `OrderManager.remove_item`: case-insensitive first-match removal,
decrementing the total by the removed line's `total_price`; `(false, s)`
when no line matches. -/
def remove_item (s : OrderState) (item_name : String) : Bool × OrderState :=
  match removeFirst (pyLower item_name) s.items with
  | some (removed, rest) =>
    (true, { s with items := rest
                    total_amount := s.total_amount - removed.total_price })
  | none => (false, s)

/-- A single `OrderManager` mutation, for stating the running-total
invariant over arbitrary call sequences. -/
inductive OrderOp
  | add (menu_item : MenuItem) (quantity : Int) (special_notes : Option String)
  | remove (item_name : String)

/-- Apply one `OrderManager` mutation to a state. -/
def applyOp (s : OrderState) : OrderOp → OrderState
  | .add mi q notes => (add_item s mi q notes).1
  | .remove name => (remove_item s name).2

/-- Run a sequence of `add_item` / `remove_item` calls from a reset
`OrderManager`. -/
def runOps (ops : List OrderOp) : OrderState :=
  ops.foldl applyOp OrderState.reset

/-! Quantity parser `convert_text_to_number`. -/

/-- A Python `Union[str, int]` argument. -/
inductive StrOrInt
  | int (n : Int)
  | str (s : String)
deriving Repr, DecidableEq

/-- The `text_to_num` lookup dictionary inside `convert_text_to_number`. -/
def text_to_num (w : String) : Option Nat :=
  match w with
  | "zero" => some 0 | "one" => some 1 | "two" => some 2 | "three" => some 3
  | "four" => some 4 | "five" => some 5 | "six" => some 6 | "seven" => some 7
  | "eight" => some 8 | "nine" => some 9 | "ten" => some 10
  | "eleven" => some 11 | "twelve" => some 12 | "thirteen" => some 13
  | "fourteen" => some 14 | "fifteen" => some 15 | "sixteen" => some 16
  | "seventeen" => some 17 | "eighteen" => some 18 | "nineteen" => some 19
  | "twenty" => some 20 | "thirty" => some 30 | "forty" => some 40
  | "fifty" => some 50 | "sixty" => some 60 | "seventy" => some 70
  | "eighty" => some 80 | "ninety" => some 90 | "hundred" => some 100
  | _ => none

/-- The hyphenated-compound branch of `convert_text_to_number`:
`text.split('-')` must give exactly two parts, both in the table. -/
def compoundNumber (t : String) : Option Nat :=
  if (t.data.contains '-') then
    match pySplitOnDash t with
    | [p1, p2] =>
      match text_to_num p1, text_to_num p2 with
      | some a, some b => some (a + b)
      | _, _ => none
    | _ => none
  else none

/-- The tail of `convert_text_to_number` on a lowercased, stripped string
that is not in the lookup table and not a two-part compound:
`"a"`/`"an"` map to 1, else the first digit run, else 1. -/
def textNumberFallback (t : String) : Nat :=
  if t == "a" || t == "an" then 1
  else
    match firstDigitRun t.data with
    | some run => digitsToNat run
    | none => 1

/-- `convert_text_to_number`: integers pass through; digit strings parse
directly; otherwise lowercase and strip, then table lookup, hyphenated
compound, `"a"`/`"an"`, first digit run, default 1. -/
def convert_text_to_number : StrOrInt → Int
  | .int n => n
  | .str text =>
    if isDigitStr text then (digitsToNat text.data : Int)
    else
      match text_to_num (pyStrip (pyLower text)) with
      | some n => (n : Int)
      | none =>
        match compoundNumber (pyStrip (pyLower text)) with
        | some n => (n : Int)
        | none => (textNumberFallback (pyStrip (pyLower text)) : Int)

/-! Menu item resolver `find_menu_item_by_name`. -/

/-- Tier 1 of the resolver: case-insensitive exact name equality. -/
def exactMatch (item_name_lower : String) (item : MenuItem) : Bool :=
  pyLower item.name == item_name_lower

/-- Tier 2 of the resolver: case-insensitive substring containment in
either direction. -/
def subMatch (item_name_lower : String) (item : MenuItem) : Bool :=
  pyIn item_name_lower (pyLower item.name) || pyIn (pyLower item.name) item_name_lower

/-- Tier 3 of the resolver: the distinct spoken-name words shared with the
item name are at least 70% of the distinct spoken-name words.  Python
compares against the float `len(item_words) * 0.7`; for every realistic
word count this comparison of an integer against the float agrees with
the exact rational comparison `10 * shared >= 7 * total` used here. -/
def tokenMatch (item_name_lower : String) (item : MenuItem) : Bool :=
  let item_words := (pySplitWords item_name_lower).dedup
  let menu_words := (pySplitWords (pyLower item.name)).dedup
  decide (7 * item_words.length ≤
    10 * (item_words.filter (fun w => menu_words.contains w)).length)

/-- `find_menu_item_by_name`: the three matching tiers tried in order,
each scanning the catalog list from the front. -/
def find_menu_item_by_name (item_name : String) (menu_items : List MenuItem) :
    Option MenuItem :=
  let item_name_lower := pyLower item_name
  match menu_items.find? (exactMatch item_name_lower) with
  | some item => some item
  | none =>
    match menu_items.find? (subMatch item_name_lower) with
    | some item => some item
    | none => menu_items.find? (tokenMatch item_name_lower)

/-! Catalog cache `ServiceCache`. -/

/-- Outcome of one remote GET in `refresh_menu_data`: a 200 response with
a JSON list, or a failure (non-200 status or a raised exception), which
the code turns into the empty list. -/
inductive FetchOutcome (α : Type)
  | success (val : List α)
  | failure
deriving Repr, DecidableEq

/-- The list `refresh_menu_data` stores for one endpoint: the payload on
success, the empty list on failure. -/
def FetchOutcome.stored {α : Type} : FetchOutcome α → List α
  | .success val => val
  | .failure => []

/-- The remote world one `refresh_menu_data` call observes: the two GET
outcomes and the clock value for `datetime.now()`. -/
structure RemoteMenuEnv where
  categoriesFetch : FetchOutcome Category
  menuItemsFetch : FetchOutcome MenuItem
  now : Nat
deriving Repr, DecidableEq

/-- The mutable state of `ServiceCache` (the `guest_info` side channel is
not read by any verified routine and is omitted). -/
structure CacheState where
  categories : Option (List Category)
  menu_items : Option (List MenuItem)
  last_update : Option Nat
deriving Repr, DecidableEq

/-- The fresh `ServiceCache` built by `__init__`: every field `None`. -/
def CacheState.init : CacheState :=
  { categories := none, menu_items := none, last_update := none }

/-- `ServiceCache.refresh_menu_data`: overwrite both snapshots from the
remote outcomes (empty list on failure) and stamp `last_update`. -/
def refresh_menu_data (env : RemoteMenuEnv) (_s : CacheState) : CacheState :=
  { categories := some env.categoriesFetch.stored
    menu_items := some env.menuItemsFetch.stored
    last_update := some env.now }

/-- `ServiceCache.get_menu_items`: refresh when the snapshot is `None` or
`force_refresh` is set, else answer from the cache.  The `Nat` component
counts the `refresh_menu_data` network round-trips this call issued. -/
def get_menu_items (env : RemoteMenuEnv) (s : CacheState)
    (force_refresh : Bool) : Option (List MenuItem) × CacheState × Nat :=
  if s.menu_items.isNone || force_refresh then
    let s' := refresh_menu_data env s
    (s'.menu_items, s', 1)
  else (s.menu_items, s, 0)

/-- `ServiceCache.get_categories`, same shape as `get_menu_items`. -/
def get_categories (env : RemoteMenuEnv) (s : CacheState)
    (force_refresh : Bool) : Option (List Category) × CacheState × Nat :=
  if s.categories.isNone || force_refresh then
    let s' := refresh_menu_data env s
    (s'.categories, s', 1)
  else (s.categories, s, 0)

/-! Flow handler functions and the static flow configuration. -/

/-- The keys of `hotel_room_service_flow["nodes"]`. -/
def flowNodeIds : List String :=
  ["greeting", "request_room", "invalid_room", "welcome_guest",
   "category_selection", "category_not_found", "show_items",
   "item_not_found", "item_added", "request_special", "confirm_order",
   "empty_order", "order_failed", "order_complete", "goodbye"]

/-- `hotel_room_service_flow["initial_node"]`. -/
def flowInitialNode : String := "greeting"

/-- Handler `request_room_number`: no result, next node `request_room`. -/
def request_room_number : Option Unit × String := (none, "request_room")

/-- Handler `end_call`: no result, next node `goodbye`. -/
def end_call : Option Unit × String := (none, "goodbye")

/-- Result dictionary of handler `validate_room`. -/
inductive ValidateRoomResult
  | valid (guest_name room_number : String)
  | invalid (room_number : String)
deriving Repr, DecidableEq

/-- Handler `validate_room`: strip the spoken room number, look the guest
up (the remote lookup outcome is passed in as `guest_info`); on success
record the guest in the order state and go to `welcome_guest`, otherwise
go to `invalid_room`. -/
def validate_room (guest_info : Option Guest) (s : OrderState)
    (room_number : String) : ValidateRoomResult × String × OrderState :=
  let room := pyStrip room_number
  match guest_info with
  | some g =>
    (.valid g.name room, "welcome_guest",
     { s with guest_id := some g.id, guest_name := some g.name
              room_number := some room })
  | none => (.invalid room, "invalid_room", s)

/-- Handler `show_categories`: names of the active cached categories,
next node `category_selection`. -/
def show_categories (categories : List Category) : List String × String :=
  ((categories.filter (fun c => c.is_active)).map (fun c => c.name),
   "category_selection")

/-- Result dictionary of handler `select_category`. -/
inductive SelectCategoryResult
  | not_found (category : String)
  | found (category : String) (items : List MenuItem)
deriving Repr, DecidableEq

/-- Handler `select_category`: first category whose lowercased name
equals, or contains as a substring, the lowercased spoken name; on a hit
list that category's menu items and go to `show_items`, else go to
`category_not_found`. -/
def select_category (categories : List Category) (menu_items : List MenuItem)
    (category_name : String) : SelectCategoryResult × String :=
  let lower := pyLower category_name
  match categories.find?
      (fun c => pyLower c.name == lower || pyIn lower (pyLower c.name)) with
  | none => (.not_found category_name, "category_not_found")
  | some cat =>
    (.found cat.name (menu_items.filter (fun it => it.category_id == cat.id)),
     "show_items")

/-- Result dictionary of handler `add_to_order`. -/
inductive AddToOrderResult
  | not_found (item : String)
  | added (item_name : String) (quantity : Int) (price : ℚ)
          (special_notes : Option String)
deriving Repr, DecidableEq

/-- Handler `add_to_order`: resolve the spoken item name against the
cached menu, convert the quantity, and append the line via
`OrderManager.add_item`; unknown items go to `item_not_found`. -/
def add_to_order (menu_items : List MenuItem) (s : OrderState)
    (item_name : String) (quantity : StrOrInt) (special_notes : Option String) :
    AddToOrderResult × String × OrderState :=
  match find_menu_item_by_name item_name menu_items with
  | none => (.not_found item_name, "item_not_found", s)
  | some menu_item =>
    (.added menu_item.name (convert_text_to_number quantity)
       (add_item s menu_item (convert_text_to_number quantity) special_notes).2.total_price
       special_notes,
     "item_added",
     (add_item s menu_item (convert_text_to_number quantity) special_notes).1)

/-- Handler `continue_ordering`: any of the affirmative words occurring
as a substring of the lowercased response keeps ordering, else move on to
special requests. -/
def continue_ordering (response : String) : Option Unit × String :=
  let response_lower := pyLower response
  if (["yes", "yeah", "sure", "more", "add", "continue"].any
      (fun w => pyIn w response_lower)) then
    (none, "category_selection")
  else (none, "request_special")

/-- Handler `set_special_requests`: store each field when it is present,
non-empty (Python truthiness) and not a negative phrase; next node
`confirm_order`. -/
def set_special_requests (s : OrderState) (requests notes : Option String) :
    Option Unit × String × OrderState :=
  let s1 :=
    match requests with
    | some r =>
      if !(r == "") && !(["no", "none", "nothing"].contains (pyLower r)) then
        { s with special_requests := some r }
      else s
    | none => s
  let s2 :=
    match notes with
    | some n =>
      if !(n == "") && !(["no", "none", "nothing"].contains (pyLower n)) then
        { s1 with delivery_notes := some n }
      else s1
    | none => s1
  (none, "confirm_order", s2)

/-- The response of the Order Service to `create_order_api`, as read by
`place_order`: `id` and `total_amount` of the created order. -/
structure PlacedOrder where
  id : String
  total_amount : ℚ
deriving Repr, DecidableEq

/-- Result dictionary of handler `place_order`. -/
inductive PlaceOrderResult
  | cancelled
  | empty
  | success (order_id : String) (total_amount : ℚ) (items : List OrderLine)
            (special_requests delivery_notes : Option String)
  | failed
deriving Repr, DecidableEq

/-- Handler `place_order`: a negative confirmation returns to `"start"`
with no API call; an empty order goes to `empty_order` with no API call;
otherwise the order is posted via `create_order_api` (outcome passed in
as `api`, `none` covering non-2xx responses and transport errors).  The
`Nat` component counts the POSTs to the Order Service this call issued. -/
def place_order (api : Option PlacedOrder) (s : OrderState)
    (confirmation : String) : PlaceOrderResult × String × OrderState × Nat :=
  let conf := pyLower confirmation
  if ["no", "cancel", "stop", "negative"].contains conf then
    (.cancelled, "start", s, 0)
  else if s.items.isEmpty then
    (.empty, "empty_order", s, 0)
  else
    match api with
    | some order =>
      (.success order.id order.total_amount s.items s.special_requests
        s.delivery_notes,
       "order_complete", { s with order_id := some order.id }, 1)
    | none => (.failed, "order_failed", s, 1)

/-! Order Service endpoint `create_order` (`app/routers/orders.py`). -/

/-- Request schema `OrderItemCreate`: the client sends only the menu item
id, the quantity and optional notes — no prices or totals. -/
structure OrderItemCreate where
  menu_item_id : String
  quantity : Int
  special_notes : Option String
deriving Repr, DecidableEq

/-- Request schema `OrderCreate`. -/
structure OrderCreate where
  guest_id : String
  special_requests : Option String
  delivery_notes : Option String
  order_items : List OrderItemCreate
deriving Repr, DecidableEq

/-- A persisted `order_items` row. -/
structure DBOrderItem where
  order_id : String
  menu_item_id : String
  quantity : Int
  unit_price : ℚ
  total_price : ℚ
  special_notes : Option String
deriving Repr, DecidableEq

/-- A persisted `orders` row (status / payment columns keep their
defaults and are not read back by any verified routine). -/
structure DBOrder where
  id : String
  guest_id : String
  total_amount : ℚ
  special_requests : Option String
  delivery_notes : Option String
deriving Repr, DecidableEq

/-- The tables the endpoint touches. -/
structure Database where
  guests : List Guest
  menu_items : List MenuItem
  orders : List DBOrder
  order_items : List DBOrderItem
deriving Repr, DecidableEq

/-- An `HTTPException` raised by the endpoint. -/
structure HTTPError where
  status : Nat
  detail : String
deriving Repr, DecidableEq

/-- The validation loop of `create_order`: walk the submitted items in
order; the first missing or unavailable menu item raises 400; otherwise
accumulate the server-side total (database price times quantity) and the
`order_items` rows to insert. -/
def buildOrderItems (db : Database) (order_id : String) :
    List OrderItemCreate → Except HTTPError (ℚ × List DBOrderItem)
  | [] => .ok (0, [])
  | item_data :: rest =>
    match db.menu_items.find? (fun m => m.id == item_data.menu_item_id) with
    | none =>
      .error ⟨400, "Menu item " ++ item_data.menu_item_id ++ " not found"⟩
    | some menu_item =>
      if !menu_item.is_available then
        .error ⟨400, "Menu item " ++ menu_item.name ++ " is not available"⟩
      else
        match buildOrderItems db order_id rest with
        | .error e => .error e
        | .ok (total, rows) =>
          .ok (menu_item.price * (item_data.quantity : ℚ) + total,
               { order_id := order_id
                 menu_item_id := item_data.menu_item_id
                 quantity := item_data.quantity
                 unit_price := menu_item.price
                 total_price := menu_item.price * (item_data.quantity : ℚ)
                 special_notes := item_data.special_notes } :: rows)

/-- Endpoint `create_order`: verify the guest, validate every submitted
item, recompute the total server-side, then insert the order row and its
item rows in one transaction.  `new_order_id` stands for the id the
database generates.  The returned `Database` is the state after the
request: unchanged whenever an error is returned. -/
def create_order (db : Database) (new_order_id : String) (order : OrderCreate) :
    Except HTTPError DBOrder × Database :=
  match db.guests.find? (fun g => g.id == order.guest_id) with
  | none => (.error ⟨400, "Guest not found"⟩, db)
  | some _ =>
    match buildOrderItems db new_order_id order.order_items with
    | .error e => (.error e, db)
    | .ok (total_amount, rows) =>
      let db_order : DBOrder :=
        { id := new_order_id
          guest_id := order.guest_id
          total_amount := total_amount
          special_requests := order.special_requests
          delivery_notes := order.delivery_notes }
      (.ok db_order,
       { db with orders := db.orders ++ [db_order]
                 order_items := db.order_items ++ rows })

/-- The server-side total the endpoint is specified to compute: the sum
over the submitted items of the database price of the referenced menu
item times the requested quantity. -/
def serverTotal (db : Database) (items : List OrderItemCreate) : ℚ :=
  (items.map (fun it =>
    (match db.menu_items.find? (fun m => m.id == it.menu_item_id) with
     | some m => m.price
     | none => 0) * (it.quantity : ℚ))).sum

/-- Is one submitted item invalid: referenced menu item absent from the
database, or present but flagged unavailable? -/
def itemInvalid (db : Database) (it : OrderItemCreate) : Bool :=
  match db.menu_items.find? (fun m => m.id == it.menu_item_id) with
  | none => true
  | some m => !m.is_available

/-! Invariants and call-sequence machinery used by the statements. -/

/-- A line is internally consistent: its `total_price` is its
`unit_price` times its `quantity`. -/
def goodLine (it : OrderLine) : Prop :=
  it.total_price = it.unit_price * (it.quantity : ℚ)

/-- The `OrderManager` bookkeeping invariant: every line is internally
consistent and `total_amount` is the sum of the lines' totals. -/
def OrderInv (s : OrderState) : Prop :=
  (∀ it ∈ s.items, goodLine it)
  ∧ s.total_amount = (s.items.map OrderLine.total_price).sum

/-- The arguments of one `add_to_order` invocation (the cached menu the
call observes, the spoken item name, the quantity argument, the notes). -/
structure AddCall where
  menu_items : List MenuItem
  item_name : String
  quantity : StrOrInt
  special_notes : Option String

/-- Run a sequence of `add_to_order` invocations from a reset
`OrderManager`, threading the order state. -/
def runAddCalls (calls : List AddCall) : OrderState :=
  calls.foldl
    (fun s c =>
      (add_to_order c.menu_items s c.item_name c.quantity c.special_notes).2.2)
    OrderState.reset

/-- A quantity argument that cannot smuggle a negative value in: any
string, or a non-negative integer. -/
def qtyArgOk : StrOrInt → Bool
  | .int n => decide (0 ≤ n)
  | .str _ => true

/-! Concrete fixtures for witnesses and counterexamples. -/

/-- Catalog item "Caesar Salad" (the spec's resolver example). -/
def caesarSalad : MenuItem :=
  { id := "m1", name := "Caesar Salad", description := none, price := 12
    category_id := "salads", is_available := true }

/-- Catalog item "Grilled Caesar Chicken Salad" (the spec's resolver
example). -/
def grilledCaesar : MenuItem :=
  { id := "m2", name := "Grilled Caesar Chicken Salad", description := none
    price := 18, category_id := "salads", is_available := true }

/-- Catalog item "Green Tea". -/
def teaItem : MenuItem :=
  { id := "m3", name := "Green Tea", description := none, price := 4
    category_id := "beverages", is_available := true }

/-- An order line for one Green Tea. -/
def teaLine : OrderLine :=
  { menu_item_id := "m3", name := "Green Tea", quantity := 1, unit_price := 4
    total_price := 4, special_notes := none }

/-- An order line for two Pancakes. -/
def pancakeLine : OrderLine :=
  { menu_item_id := "m4", name := "Pancakes", quantity := 2, unit_price := 9
    total_price := 18, special_notes := none }

/-- An order holding one Green Tea with the guest id still unset. -/
def sampleOrderWithTea : OrderState :=
  { OrderState.reset with items := [teaLine], total_amount := 4 }

/-- An order holding the pancake and tea lines. -/
def twoLineOrder : OrderState :=
  { OrderState.reset with items := [pancakeLine, teaLine], total_amount := 22 }

/-- One `add_to_order` call with spoken quantity "two". -/
def demoAddCalls : List AddCall :=
  [{ menu_items := [teaItem], item_name := "green tea", quantity := .str "two"
     special_notes := none }]

/-- One `add_to_order` call with spoken quantity "zero". -/
def zeroQtyCalls : List AddCall :=
  [{ menu_items := [teaItem], item_name := "green tea", quantity := .str "zero"
     special_notes := none }]

/-- The guest Jane in room 101. -/
def jane : Guest := { id := "g1", name := "Jane", room_number := "101" }

/-- A menu item flagged as unavailable. -/
def staleCake : MenuItem :=
  { id := "m9", name := "Stale Cake", description := none, price := 7
    category_id := "desserts", is_available := false }

/-- A database holding Jane and the three sample menu items plus the
unavailable one. -/
def sampleDB : Database :=
  { guests := [jane], menu_items := [caesarSalad, grilledCaesar, teaItem, staleCake]
    orders := [], order_items := [] }

/-- A well-formed order request: one Green Tea for Jane. -/
def teaOrderCreate : OrderCreate :=
  { guest_id := "g1", special_requests := none, delivery_notes := none
    order_items := [{ menu_item_id := "m3", quantity := 1, special_notes := none }] }

/-- An order request referencing the unavailable menu item. -/
def staleOrderCreate : OrderCreate :=
  { guest_id := "g1", special_requests := none, delivery_notes := none
    order_items := [{ menu_item_id := "m9", quantity := 1, special_notes := none }] }

/-! Lemmas about `removeFirst` and the `OrderManager` invariant. -/

/-- Removing a line splits the image sum: the total over the original
lines is the removed line's value plus the total over the rest. -/
theorem removeFirst_sum (f : OrderLine → ℚ) (nl : String) :
    ∀ (l : List OrderLine) (r : OrderLine) (rest : List OrderLine),
    removeFirst nl l = some (r, rest) →
    (l.map f).sum = f r + (rest.map f).sum := by
  intro l
  induction l with
  | nil => intro r rest h; simp [removeFirst] at h
  | cons it t ih =>
    intro r rest h
    simp only [removeFirst] at h
    by_cases hc : pyLower it.name == nl
    · rw [if_pos hc] at h
      simp only [Option.some.injEq, Prod.mk.injEq] at h
      obtain ⟨h1, h2⟩ := h
      subst h1; subst h2
      simp
    · rw [if_neg hc] at h
      cases hrec : removeFirst nl t with
      | none => rw [hrec] at h; cases h
      | some pr =>
        obtain ⟨r', rest'⟩ := pr
        rw [hrec] at h
        simp only [Option.some.injEq, Prod.mk.injEq] at h
        obtain ⟨h1, h2⟩ := h
        subst h1; subst h2
        have hs := ih r' rest' hrec
        simp only [List.map_cons, List.sum_cons, hs]
        ring

/-- Every line left after a removal was a line of the original list. -/
theorem removeFirst_subset (nl : String) :
    ∀ (l : List OrderLine) (r : OrderLine) (rest : List OrderLine),
    removeFirst nl l = some (r, rest) → ∀ x ∈ rest, x ∈ l := by
  intro l
  induction l with
  | nil => intro r rest h; simp [removeFirst] at h
  | cons it t ih =>
    intro r rest h
    simp only [removeFirst] at h
    by_cases hc : pyLower it.name == nl
    · rw [if_pos hc] at h
      simp only [Option.some.injEq, Prod.mk.injEq] at h
      obtain ⟨h1, h2⟩ := h
      subst h1; subst h2
      intro x hx
      exact List.mem_cons_of_mem it hx
    · rw [if_neg hc] at h
      cases hrec : removeFirst nl t with
      | none => rw [hrec] at h; cases h
      | some pr =>
        obtain ⟨r', rest'⟩ := pr
        rw [hrec] at h
        simp only [Option.some.injEq, Prod.mk.injEq] at h
        obtain ⟨h1, h2⟩ := h
        subst h1; subst h2
        intro x hx
        rcases List.mem_cons.mp hx with hx | hx
        · exact hx ▸ List.mem_cons_self it t
        · exact List.mem_cons_of_mem it (ih r' rest' hrec x hx)

/-- One `add_item` or `remove_item` call preserves the bookkeeping
invariant. -/
theorem orderInv_applyOp (s : OrderState) (op : OrderOp) (h : OrderInv s) :
    OrderInv (applyOp s op) := by
  obtain ⟨hlines, htot⟩ := h
  cases op with
  | add mi q notes =>
    constructor
    · intro it hit
      simp only [applyOp, add_item, List.mem_append, List.mem_singleton] at hit
      rcases hit with hit | hit
      · exact hlines it hit
      · subst hit; rfl
    · simp [applyOp, add_item, htot]
  | remove name =>
    simp only [applyOp, remove_item]
    cases hrf : removeFirst (pyLower name) s.items with
    | none => exact ⟨hlines, htot⟩
    | some pr =>
      obtain ⟨r, rest⟩ := pr
      constructor
      · intro it hit
        exact hlines it (removeFirst_subset _ _ _ _ hrf it hit)
      · have hsum := removeFirst_sum OrderLine.total_price _ _ _ _ hrf
        simp only [htot, hsum]
        ring

/-- The bookkeeping invariant holds along any fold of mutations. -/
theorem orderInv_foldl (ops : List OrderOp) :
    ∀ s, OrderInv s → OrderInv (ops.foldl applyOp s) := by
  induction ops with
  | nil => intro s h; exact h
  | cons op t ih => intro s h; exact ih _ (orderInv_applyOp s op h)

/-- The bookkeeping invariant holds after any call sequence from a reset
`OrderManager`. -/
theorem orderInv_runOps (ops : List OrderOp) : OrderInv (runOps ops) := by
  refine orderInv_foldl ops OrderState.reset ⟨?_, ?_⟩
  · intro it hit
    simp [OrderState.reset] at hit
  · simp [OrderState.reset]

/-- C1 (confirmed).  For every sequence of `OrderManager.add_item` /
`OrderManager.remove_item` calls starting from a reset `OrderManager`,
`total_amount` equals the sum over the current lines of quantity times
unit price, and equivalently the sum of their `total_price` fields.
Every prefix of a sequence is itself a sequence, so this gives the
invariant after each call. -/
theorem C1_running_total_invariant (ops : List OrderOp) :
    (runOps ops).total_amount =
      ((runOps ops).items.map
        (fun it => it.unit_price * (it.quantity : ℚ))).sum
    ∧ (runOps ops).total_amount =
      ((runOps ops).items.map OrderLine.total_price).sum := by
  obtain ⟨hlines, htot⟩ := orderInv_runOps ops
  refine ⟨?_, htot⟩
  rw [htot]
  exact congrArg List.sum (List.map_congr_left (fun it hit => hlines it hit))

/-- When no line's lowercased name equals the target, the removal scan
finds nothing. -/
theorem removeFirst_eq_none (nl : String) :
    ∀ l : List OrderLine, (∀ it ∈ l, ¬ (pyLower it.name = nl)) →
    removeFirst nl l = none := by
  intro l
  induction l with
  | nil => intro _; rfl
  | cons it t ih =>
    intro h
    have h1 : ¬ (pyLower it.name = nl) := h it (List.mem_cons_self it t)
    have h2 : removeFirst nl t = none :=
      ih (fun x hx => h x (List.mem_cons_of_mem it hx))
    simp [removeFirst, h1, h2]

/-- The removal scan removes exactly the first matching line. -/
theorem removeFirst_append (nl : String) (it : OrderLine)
    (l₂ : List OrderLine) (hit : pyLower it.name = nl) :
    ∀ l₁ : List OrderLine, (∀ x ∈ l₁, ¬ (pyLower x.name = nl)) →
    removeFirst nl (l₁ ++ it :: l₂) = some (it, l₁ ++ l₂) := by
  intro l₁
  induction l₁ with
  | nil => intro _; simp [removeFirst, hit]
  | cons b t ih =>
    intro h
    have h1 : ¬ (pyLower b.name = nl) := h b (List.mem_cons_self b t)
    have h2 := ih (fun x hx => h x (List.mem_cons_of_mem b hx))
    simp [removeFirst, h1, h2]

/-- C9 (confirmed).  `OrderManager.remove_item` removes exactly the first
line whose name matches case-insensitively, decrements `total_amount` by
exactly that line's `total_price`, leaves every other line and every
other field unchanged and returns `True`; when no line matches it
returns `False` and the state is unchanged. -/
theorem C9_remove_item_spec :
    (∀ (s : OrderState) (item_name : String),
      (∀ it ∈ s.items, ¬ (pyLower it.name = pyLower item_name)) →
      remove_item s item_name = (false, s))
    ∧ (∀ (s : OrderState) (item_name : String) (l₁ : List OrderLine)
        (it : OrderLine) (l₂ : List OrderLine),
        s.items = l₁ ++ it :: l₂ →
        pyLower it.name = pyLower item_name →
        (∀ x ∈ l₁, ¬ (pyLower x.name = pyLower item_name)) →
        remove_item s item_name =
          (true, { s with items := l₁ ++ l₂
                          total_amount := s.total_amount - it.total_price })) := by
  constructor
  · intro s item_name h
    simp [remove_item, removeFirst_eq_none _ _ h]
  · intro s item_name l₁ it l₂ hs hit h
    simp [remove_item, hs, removeFirst_append _ _ _ hit _ h]

/-- Witness for C9: removing "GREEN tea" from the two-line order drops
exactly the tea line and its price. -/
theorem C9_witness :
    remove_item twoLineOrder "GREEN tea" =
      (true, { twoLineOrder with
                items := [pancakeLine]
                total_amount := twoLineOrder.total_amount - teaLine.total_price }) :=
  C9_remove_item_spec.2 twoLineOrder "GREEN tea" [pancakeLine] teaLine []
    rfl (by decide) (by decide)

/-- On string input the quantity parser never returns a negative value:
every branch yields a natural number cast to `Int`. -/
theorem convert_text_to_number_str_nonneg (t : String) :
    0 ≤ convert_text_to_number (.str t) := by
  simp only [convert_text_to_number]
  split
  · exact Int.natCast_nonneg _
  · split
    · exact Int.natCast_nonneg _
    · split
      · exact Int.natCast_nonneg _
      · exact Int.natCast_nonneg _

/-- C7 counterexample: `convert_text_to_number("zero")` is 0, not at
least 1 as the claim states for every input. -/
theorem C7_counterexample :
    convert_text_to_number (.str "zero") = 0
    ∧ ¬ (1 ≤ convert_text_to_number (.str "zero")) := by decide

/-- C7 (corrected).  `convert_text_to_number` is total and returns a
non-negative integer on every string input (0 is reachable, e.g. for
"zero" or "0"); an integer input is returned unchanged, so only there a
negative value can pass through.  The four examples of the claim hold:
"twenty-one" gives 21, "a" gives 1, "3" gives 3 and "xyz" gives 1. -/
theorem C7_quantity_parser_amended :
    (∀ t : String, 0 ≤ convert_text_to_number (.str t))
    ∧ (∀ n : Int, convert_text_to_number (.int n) = n)
    ∧ convert_text_to_number (.str "twenty-one") = 21
    ∧ convert_text_to_number (.str "a") = 1
    ∧ convert_text_to_number (.str "3") = 3
    ∧ convert_text_to_number (.str "xyz") = 1 :=
  ⟨convert_text_to_number_str_nonneg, fun _ => rfl,
   by decide, by decide, by decide, by decide⟩

/-- One `add_to_order` call with an admissible quantity argument keeps
every line's quantity non-negative. -/
theorem add_to_order_qty_nonneg (menu : List MenuItem) (s : OrderState)
    (nm : String) (q : StrOrInt) (notes : Option String)
    (hq : qtyArgOk q = true) (h : ∀ it ∈ s.items, 0 ≤ it.quantity) :
    ∀ it ∈ (add_to_order menu s nm q notes).2.2.items, 0 ≤ it.quantity := by
  intro it hit
  simp only [add_to_order] at hit
  cases hfind : find_menu_item_by_name nm menu with
  | none =>
    rw [hfind] at hit
    exact h it hit
  | some mi =>
    rw [hfind] at hit
    simp only [add_item, List.mem_append, List.mem_singleton] at hit
    rcases hit with hit | hit
    · exact h it hit
    · subst hit
      show 0 ≤ convert_text_to_number q
      cases q with
      | int n => simpa [qtyArgOk] using hq
      | str t => exact convert_text_to_number_str_nonneg t

/-- C5 counterexample: one `add_to_order` call with spoken quantity
"zero" leaves the order with a line of quantity 0, violating the claimed
`qty ≥ 1` invariant. -/
theorem C5_counterexample :
    (runAddCalls zeroQtyCalls).items.map OrderLine.quantity = [0] := by decide

/-- C5 (corrected).  After any sequence of `add_to_order` invocations in
which every quantity argument is a string or a non-negative integer,
every line of the order has quantity at least 0 — not at least 1 as
claimed: a spoken "zero" (or "0") yields a line of quantity 0, and an
integer argument is used as-is. -/
theorem C5_quantity_nonneg_amended (calls : List AddCall)
    (h : ∀ c ∈ calls, qtyArgOk c.quantity = true) :
    ∀ it ∈ (runAddCalls calls).items, 0 ≤ it.quantity := by
  suffices H : ∀ (cs : List AddCall) (s : OrderState),
      (∀ c ∈ cs, qtyArgOk c.quantity = true) →
      (∀ it ∈ s.items, 0 ≤ it.quantity) →
      ∀ it ∈ (cs.foldl
        (fun s c =>
          (add_to_order c.menu_items s c.item_name c.quantity c.special_notes).2.2)
        s).items, 0 ≤ it.quantity by
    refine H calls OrderState.reset h ?_
    intro it hit
    simp [OrderState.reset] at hit
  intro cs
  induction cs with
  | nil => intro s _ hs; exact hs
  | cons c t ih =>
    intro s hcs hs
    exact ih _ (fun x hx => hcs x (List.mem_cons_of_mem c hx))
      (add_to_order_qty_nonneg _ _ _ _ _ (hcs c (List.mem_cons_self c t)) hs)

/-- Witness for C5: the demo call sequence (spoken quantity "two")
satisfies the hypothesis, so all its lines have non-negative quantity. -/
theorem C5_witness :
    (∀ c ∈ demoAddCalls, qtyArgOk c.quantity = true)
    ∧ ∀ it ∈ (runAddCalls demoAddCalls).items, 0 ≤ it.quantity :=
  ⟨by decide, C5_quantity_nonneg_amended demoAddCalls (by decide)⟩

/-- C8 (confirmed).  Starting from any cache state, two consecutive
`get_menu_items()` calls without `force_refresh` issue at most one
remote fetch; the second call never fetches, because a refresh always
leaves the snapshot set — as an empty list when the remote fetch failed
— and only a `None` snapshot triggers a fetch. -/
theorem C8_cache_idempotent (env₁ env₂ : RemoteMenuEnv) (s : CacheState) :
    (get_menu_items env₂ (get_menu_items env₁ s false).2.1 false).2.2 = 0
    ∧ (get_menu_items env₁ s false).2.2
        + (get_menu_items env₂ (get_menu_items env₁ s false).2.1 false).2.2 ≤ 1
    ∧ ((get_menu_items env₁ s false).2.1.menu_items).isSome = true := by
  cases hm : s.menu_items <;>
    simp [get_menu_items, refresh_menu_data, hm]

/-- C2 counterexample: with the guest id unset and one line in the
order, a confirmed submission still issues one network call to the Order
Service (the code has no local guest-id precondition and no MissingGuest
error), contradicting the claimed zero network calls. -/
theorem C2_counterexample :
    sampleOrderWithTea.guest_id = none
    ∧ (place_order none sampleOrderWithTea "yes").2.2.2 = 1 := by decide

/-- C2 (corrected).  `place_order` checks only the empty-order
precondition locally: on a non-declined confirmation an order with zero
lines returns the empty result routing to `empty_order` with zero
network calls, while an order with lines is always posted to the Order
Service (exactly one call) — even when the guest id is unset; no local
MissingGuest check exists. -/
theorem C2_submission_preconditions_amended :
    (∀ (api : Option PlacedOrder) (s : OrderState) (confirmation : String),
      ["no", "cancel", "stop", "negative"].contains (pyLower confirmation) = false →
      s.items.isEmpty = true →
      place_order api s confirmation = (.empty, "empty_order", s, 0))
    ∧ (∀ (api : Option PlacedOrder) (s : OrderState) (confirmation : String),
      ["no", "cancel", "stop", "negative"].contains (pyLower confirmation) = false →
      s.items.isEmpty = false →
      (place_order api s confirmation).2.2.2 = 1) := by
  constructor
  · intro api s conf h1 h2
    simp at h1 h2
    simp [place_order, h1, h2]
  · intro api s conf h1 h2
    simp at h1 h2
    cases api <;> simp [place_order, h1, h2]

/-- Witness for C2: a confirmed empty order returns the empty result
with zero network calls. -/
theorem C2_witness :
    place_order none OrderState.reset "yes" =
      (.empty, "empty_order", OrderState.reset, 0) :=
  C2_submission_preconditions_amended.1 none OrderState.reset "yes"
    (by decide) (by decide)

/-- C3 counterexample: a declined confirmation returns the node id
"start", which is not the greeting node and not a declared node of the
flow at all, so the handler does not transition back toward the greeting
node as claimed. -/
theorem C3_counterexample :
    (place_order none OrderState.reset "no").2.1 = "start"
    ∧ flowNodeIds.contains "start" = false
    ∧ (place_order none OrderState.reset "no").2.1 ≠ flowInitialNode := by decide

/-- C3 (corrected).  For every order state and Order Service outcome, a
declined confirmation ("no", "cancel", "stop" or "negative",
case-insensitively) makes `place_order` return the cancelled status with
zero network calls and the order state unchanged; the returned next-node
id is the undeclared "start" rather than the greeting node.  Since the
handler returns before the API call, a fresh non-declined confirmation
in a new `place_order` invocation is required before any submission. -/
theorem C3_declined_confirmation_amended (api : Option PlacedOrder)
    (s : OrderState) (confirmation : String)
    (h : ["no", "cancel", "stop", "negative"].contains (pyLower confirmation) = true) :
    place_order api s confirmation = (.cancelled, "start", s, 0) := by
  simp at h
  rcases h with h | h | h | h <;> simp [place_order, h]

/-- Witness for C3: declining with "no" from the reset state. -/
theorem C3_witness :
    place_order none OrderState.reset "no" =
      (.cancelled, "start", OrderState.reset, 0) :=
  C3_declined_confirmation_amended none OrderState.reset "no" (by decide)

/-- C4 (code bug).  On a declined confirmation `place_order` returns the
next-node id "start", which is not a key of
`hotel_room_service_flow["nodes"]` — the initial node is named
"greeting" — so the claimed property that every returned node id is
statically declared fails exactly there; every other node id
`place_order` can return, and every node id any other handler returns,
is declared. -/
theorem C4_place_order_undeclared_node :
    (place_order none sampleOrderWithTea "no").2.1 = "start"
    ∧ flowNodeIds.contains "start" = false
    ∧ (∀ (api : Option PlacedOrder) (s : OrderState) (confirmation : String),
        (place_order api s confirmation).2.1 = "start"
        ∨ flowNodeIds.contains (place_order api s confirmation).2.1 = true)
    ∧ (∀ (guest_info : Option Guest) (s : OrderState) (room : String),
        flowNodeIds.contains (validate_room guest_info s room).2.1 = true)
    ∧ (∀ (cats : List Category) (menu : List MenuItem) (nm : String),
        flowNodeIds.contains (select_category cats menu nm).2 = true)
    ∧ (∀ (menu : List MenuItem) (s : OrderState) (nm : String)
        (q : StrOrInt) (notes : Option String),
        flowNodeIds.contains (add_to_order menu s nm q notes).2.1 = true)
    ∧ (∀ response : String,
        flowNodeIds.contains (continue_ordering response).2 = true)
    ∧ (∀ (s : OrderState) (requests notes : Option String),
        flowNodeIds.contains (set_special_requests s requests notes).2.1 = true)
    ∧ flowNodeIds.contains request_room_number.2 = true
    ∧ (∀ cats : List Category,
        flowNodeIds.contains (show_categories cats).2 = true)
    ∧ flowNodeIds.contains end_call.2 = true := by
  refine ⟨by decide, by decide, ?_, ?_, ?_, ?_, ?_, ?_, by decide, ?_, by decide⟩
  · intro api s conf
    simp only [place_order]
    split
    · exact Or.inl rfl
    · split
      · exact Or.inr rfl
      · cases api <;> exact Or.inr rfl
  · intro gi s room
    cases gi <;> rfl
  · intro cats menu nm
    simp only [select_category]
    split <;> rfl
  · intro menu s nm q notes
    simp only [add_to_order]
    split <;> rfl
  · intro response
    simp only [continue_ordering]
    split <;> rfl
  · intro s requests notes
    rfl
  · intro cats
    rfl

/-- Scanning a list from the front finds the first element satisfying
the predicate. -/
theorem find?_first_qualifying {α : Type} (p : α → Bool) :
    ∀ (l₁ : List α) (a : α) (l₂ : List α),
    (∀ x ∈ l₁, p x = false) → p a = true →
    (l₁ ++ a :: l₂).find? p = some a := by
  intro l₁
  induction l₁ with
  | nil =>
    intro a l₂ _ ha
    simp [List.find?_cons_of_pos _ ha]
  | cons b t ih =>
    intro a l₂ h ha
    have hb : p b = false := h b (List.mem_cons_self b t)
    have hb' : ¬ p b := by simp [hb]
    have ht := ih a l₂ (fun x hx => h x (List.mem_cons_of_mem b hx)) ha
    simp [List.find?_cons_of_neg _ hb', ht]

/-- A scan over elements that all fail the predicate finds nothing. -/
theorem find?_all_failing {α : Type} (p : α → Bool) (l : List α)
    (h : ∀ x ∈ l, p x = false) : l.find? p = none :=
  List.find?_eq_none.mpr (fun x hx => by simp [h x hx])

/-- C6 (confirmed).  `find_menu_item_by_name` evaluates its three tiers
in strict precedence order — exact case-insensitive match, then
substring containment in either direction, then at-least-70% token
overlap of the spoken-name tokens — returning the first qualifying item
in catalog order within the first tier that has any match and `none`
when no tier matches; on the catalog ["Caesar Salad", "Grilled Caesar
Chicken Salad"], "caesar salad" resolves to the exact match. -/
theorem C6_resolver_precedence :
    (∀ (name : String) (menu l₁ : List MenuItem) (it : MenuItem)
        (l₂ : List MenuItem),
      menu = l₁ ++ it :: l₂ →
      exactMatch (pyLower name) it = true →
      (∀ x ∈ l₁, exactMatch (pyLower name) x = false) →
      find_menu_item_by_name name menu = some it)
    ∧ (∀ (name : String) (menu l₁ : List MenuItem) (it : MenuItem)
        (l₂ : List MenuItem),
      menu = l₁ ++ it :: l₂ →
      (∀ x ∈ menu, exactMatch (pyLower name) x = false) →
      subMatch (pyLower name) it = true →
      (∀ x ∈ l₁, subMatch (pyLower name) x = false) →
      find_menu_item_by_name name menu = some it)
    ∧ (∀ (name : String) (menu l₁ : List MenuItem) (it : MenuItem)
        (l₂ : List MenuItem),
      menu = l₁ ++ it :: l₂ →
      (∀ x ∈ menu, exactMatch (pyLower name) x = false) →
      (∀ x ∈ menu, subMatch (pyLower name) x = false) →
      tokenMatch (pyLower name) it = true →
      (∀ x ∈ l₁, tokenMatch (pyLower name) x = false) →
      find_menu_item_by_name name menu = some it)
    ∧ (∀ (name : String) (menu : List MenuItem),
      (∀ x ∈ menu, exactMatch (pyLower name) x = false
        ∧ subMatch (pyLower name) x = false
        ∧ tokenMatch (pyLower name) x = false) →
      find_menu_item_by_name name menu = none)
    ∧ find_menu_item_by_name "caesar salad" [caesarSalad, grilledCaesar] =
        some caesarSalad := by
  refine ⟨?_, ?_, ?_, ?_, by decide⟩
  · intro name menu l₁ it l₂ hm hit hl₁
    subst hm
    simp only [find_menu_item_by_name]
    rw [find?_first_qualifying _ l₁ it l₂ hl₁ hit]
  · intro name menu l₁ it l₂ hm hex hit hl₁
    subst hm
    simp only [find_menu_item_by_name]
    rw [find?_all_failing _ _ hex, find?_first_qualifying _ l₁ it l₂ hl₁ hit]
  · intro name menu l₁ it l₂ hm hex hsub hit hl₁
    subst hm
    simp only [find_menu_item_by_name]
    rw [find?_all_failing _ _ hex, find?_all_failing _ _ hsub,
      find?_first_qualifying _ l₁ it l₂ hl₁ hit]
  · intro name menu h
    simp only [find_menu_item_by_name]
    rw [find?_all_failing _ _ (fun x hx => (h x hx).1),
      find?_all_failing _ _ (fun x hx => (h x hx).2.1),
      find?_all_failing _ _ (fun x hx => (h x hx).2.2)]

/-- Witness for C6: the exact-match tier fires on the spec's example
catalog. -/
theorem C6_witness :
    exactMatch (pyLower "caesar salad") caesarSalad = true
    ∧ find_menu_item_by_name "caesar salad" [caesarSalad, grilledCaesar] =
        some caesarSalad :=
  ⟨by decide,
   C6_resolver_precedence.1 "caesar salad" [caesarSalad, grilledCaesar]
     [] caesarSalad [grilledCaesar] rfl (by decide) (by simp)⟩

/-- Every error of the item-validation loop carries HTTP status 400. -/
theorem buildOrderItems_error_status (db : Database) (oid : String) :
    ∀ (items : List OrderItemCreate) (e : HTTPError),
    buildOrderItems db oid items = .error e → e.status = 400 := by
  intro items
  induction items with
  | nil => intro e h; simp [buildOrderItems] at h
  | cons a t ih =>
    intro e h
    cases hf : db.menu_items.find? (fun m => m.id == a.menu_item_id) with
    | none =>
      simp [buildOrderItems, hf] at h
      rw [← h]
    | some m =>
      cases hav : m.is_available with
      | false =>
        simp [buildOrderItems, hf, hav] at h
        rw [← h]
      | true =>
        cases hb : buildOrderItems db oid t with
        | error e' =>
          simp [buildOrderItems, hf, hav, hb] at h
          exact h ▸ ih e' hb
        | ok pr =>
          obtain ⟨tot, rows⟩ := pr
          simp [buildOrderItems, hf, hav, hb] at h

/-- The item-validation loop fails exactly when some submitted item
references a missing or unavailable menu item. -/
theorem buildOrderItems_error_iff (db : Database) (oid : String) :
    ∀ items : List OrderItemCreate,
    (∃ e, buildOrderItems db oid items = .error e)
      ↔ ∃ it ∈ items, itemInvalid db it = true := by
  intro items
  induction items with
  | nil => simp [buildOrderItems]
  | cons a t ih =>
    cases hf : db.menu_items.find? (fun m => m.id == a.menu_item_id) with
    | none =>
      constructor
      · intro _
        exact ⟨a, List.mem_cons_self a t, by simp [itemInvalid, hf]⟩
      · intro _
        exact ⟨⟨400, "Menu item " ++ a.menu_item_id ++ " not found"⟩,
          by simp [buildOrderItems, hf]⟩
    | some m =>
      cases hav : m.is_available with
      | false =>
        constructor
        · intro _
          exact ⟨a, List.mem_cons_self a t, by simp [itemInvalid, hf, hav]⟩
        · intro _
          exact ⟨⟨400, "Menu item " ++ m.name ++ " is not available"⟩,
            by simp [buildOrderItems, hf, hav]⟩
      | true =>
        cases hb : buildOrderItems db oid t with
        | error e' =>
          constructor
          · intro _
            obtain ⟨it, hit, hinv⟩ := ih.mp ⟨e', hb⟩
            exact ⟨it, List.mem_cons_of_mem a hit, hinv⟩
          · intro _
            exact ⟨e', by simp [buildOrderItems, hf, hav, hb]⟩
        | ok pr =>
          obtain ⟨tot, rows⟩ := pr
          constructor
          · rintro ⟨e, he⟩
            simp [buildOrderItems, hf, hav, hb] at he
          · rintro ⟨it, hit, hinv⟩
            rcases List.mem_cons.mp hit with hcase | hcase
            · subst hcase
              simp [itemInvalid, hf, hav] at hinv
            · obtain ⟨e, he⟩ := ih.mpr ⟨it, hcase, hinv⟩
              rw [hb] at he
              simp at he

/-- On success the item-validation loop returns exactly the server-side
total: the sum of database price times requested quantity. -/
theorem buildOrderItems_ok_total (db : Database) (oid : String) :
    ∀ (items : List OrderItemCreate) (total : ℚ) (rows : List DBOrderItem),
    buildOrderItems db oid items = .ok (total, rows) →
    total = serverTotal db items := by
  intro items
  induction items with
  | nil =>
    intro total rows h
    simp only [buildOrderItems, Except.ok.injEq, Prod.mk.injEq] at h
    simp [serverTotal, ← h.1]
  | cons a t ih =>
    intro total rows h
    cases hf : db.menu_items.find? (fun m => m.id == a.menu_item_id) with
    | none => simp [buildOrderItems, hf] at h
    | some m =>
      cases hav : m.is_available with
      | false => simp [buildOrderItems, hf, hav] at h
      | true =>
        cases hb : buildOrderItems db oid t with
        | error e' => simp [buildOrderItems, hf, hav, hb] at h
        | ok pr =>
          obtain ⟨tot', rows'⟩ := pr
          simp [buildOrderItems, hf, hav, hb] at h
          have htot := ih tot' rows' hb
          rw [← h.1, htot]
          simp [serverTotal, hf]

/-- C10 (confirmed).  The Order Service `create_order` endpoint (1)
returns the database unchanged together with an HTTP 400 error whenever
it fails, (2) fails exactly when the guest does not exist or some
submitted item references a missing or unavailable menu item, and (3) on
success stores and returns an order whose `total_amount` is recomputed
server-side as the sum of database price times requested quantity (the
request schema carries no client-side totals at all). -/
theorem C10_create_order_spec :
    (∀ (db : Database) (new_order_id : String) (o : OrderCreate)
        (e : HTTPError) (db' : Database),
      create_order db new_order_id o = (.error e, db') →
      db' = db ∧ e.status = 400)
    ∧ (∀ (db : Database) (new_order_id : String) (o : OrderCreate),
      (∃ e db', create_order db new_order_id o = (.error e, db')) ↔
        ((db.guests.find? (fun g => g.id == o.guest_id)).isNone = true
          ∨ ∃ it ∈ o.order_items, itemInvalid db it = true))
    ∧ (∀ (db : Database) (new_order_id : String) (o : OrderCreate)
        (ord : DBOrder) (db' : Database),
      create_order db new_order_id o = (.ok ord, db') →
      ord.total_amount = serverTotal db o.order_items
      ∧ db'.orders = db.orders ++ [ord]
      ∧ ord.id = new_order_id ∧ ord.guest_id = o.guest_id) := by
  refine ⟨?_, ?_, ?_⟩
  · intro db oid o e db' h
    cases hg : db.guests.find? (fun g => g.id == o.guest_id) with
    | none =>
      simp only [create_order, hg, Prod.mk.injEq, Except.error.injEq] at h
      exact ⟨h.2.symm, by rw [← h.1]⟩
    | some g =>
      cases hb : buildOrderItems db oid o.order_items with
      | error e' =>
        simp only [create_order, hg, hb, Prod.mk.injEq, Except.error.injEq] at h
        exact ⟨h.2.symm, h.1 ▸ buildOrderItems_error_status db oid _ e' hb⟩
      | ok pr =>
        obtain ⟨tot, rows⟩ := pr
        simp [create_order, hg, hb] at h
  · intro db oid o
    cases hg : db.guests.find? (fun g => g.id == o.guest_id) with
    | none =>
      constructor
      · intro _
        exact Or.inl (by simp [hg])
      · intro _
        exact ⟨⟨400, "Guest not found"⟩, db, by simp [create_order, hg]⟩
    | some g =>
      cases hb : buildOrderItems db oid o.order_items with
      | error e' =>
        constructor
        · intro _
          exact Or.inr ((buildOrderItems_error_iff db oid o.order_items).mp ⟨e', hb⟩)
        · intro _
          exact ⟨e', db, by simp [create_order, hg, hb]⟩
      | ok pr =>
        obtain ⟨tot, rows⟩ := pr
        constructor
        · rintro ⟨e, db', he⟩
          simp [create_order, hg, hb] at he
        · rintro (hcase | hcase)
          · simp [hg] at hcase
          · obtain ⟨e, he⟩ :=
              (buildOrderItems_error_iff db oid o.order_items).mpr hcase
            rw [hb] at he
            simp at he
  · intro db oid o ord db' h
    cases hg : db.guests.find? (fun g => g.id == o.guest_id) with
    | none =>
      simp [create_order, hg] at h
    | some g =>
      cases hb : buildOrderItems db oid o.order_items with
      | error e' =>
        simp [create_order, hg, hb] at h
      | ok pr =>
        obtain ⟨tot, rows⟩ := pr
        simp only [create_order, hg, hb, Prod.mk.injEq, Except.ok.injEq] at h
        obtain ⟨hord, hdb⟩ := h
        subst hord
        subst hdb
        exact ⟨buildOrderItems_ok_total db oid o.order_items tot rows hb,
               rfl, rfl, rfl⟩

/-- Witness for C10: submitting the unavailable cake yields a 400 error
with the database unchanged, and submitting one Green Tea succeeds with
the server-computed total. -/
theorem C10_witness :
    (sampleDB = sampleDB
      ∧ (HTTPError.mk 400 "Menu item Stale Cake is not available").status = 400)
    ∧ ((DBOrder.mk "o2" "g1" ((4 : ℚ) * ((1 : Int) : ℚ) + 0) none none).total_amount
          = serverTotal sampleDB teaOrderCreate.order_items
      ∧ ({ sampleDB with
            orders := [DBOrder.mk "o2" "g1" ((4 : ℚ) * ((1 : Int) : ℚ) + 0) none none]
            order_items :=
              [DBOrderItem.mk "o2" "m3" 1 4 ((4 : ℚ) * ((1 : Int) : ℚ)) none] }).orders
          = sampleDB.orders ++
              [DBOrder.mk "o2" "g1" ((4 : ℚ) * ((1 : Int) : ℚ) + 0) none none]
      ∧ (DBOrder.mk "o2" "g1" ((4 : ℚ) * ((1 : Int) : ℚ) + 0) none none).id = "o2"
      ∧ (DBOrder.mk "o2" "g1" ((4 : ℚ) * ((1 : Int) : ℚ) + 0) none none).guest_id
          = teaOrderCreate.guest_id) :=
  ⟨C10_create_order_spec.1 sampleDB "o1" staleOrderCreate
      ⟨400, "Menu item Stale Cake is not available"⟩ sampleDB rfl,
   C10_create_order_spec.2.2 sampleDB "o2" teaOrderCreate
      (DBOrder.mk "o2" "g1" ((4 : ℚ) * ((1 : Int) : ℚ) + 0) none none)
      ({ sampleDB with
          orders := [DBOrder.mk "o2" "g1" ((4 : ℚ) * ((1 : Int) : ℚ) + 0) none none]
          order_items :=
            [DBOrderItem.mk "o2" "m3" 1 4 ((4 : ℚ) * ((1 : Int) : ℚ)) none] })
      rfl⟩

end GrandPlaza
